import Mathlib

/-!
Verification development for the kilocode integration glue layer:
the CLI environment/config override resolver, the IDE provider-env
mapper, the default-model resolver and its cache, the balance checker,
the organization-modes refreshers, and the telemetry identity manager.

Machine integers of the source (timestamps, counts) are modelled as Nat;
JavaScript promises/exceptions are modelled with Except; external I/O
collaborators (fetch, filesystem) are modelled as explicit outcome
parameters threaded into the functions.
-/

/-! ## Environment variable constants (env-config) -/

/-- Modelled from the spec: the env-config module of the CLI is absent from
the sources (only its test suite is present); the constant BUILDER_PREFIX
exported by that module, per the spec and the test suite. -/
def BUILDER_PRE : String := "BUILDER_"

/-- Modelled from the spec: the constant KILO_PREFIX exported by the absent
env-config module, per the spec and the test suite. -/
def KILO_PRE : String := "KILO_"

/-- Modelled from the spec: the provider-selector variable PROVIDER_ENV_VAR
exported by the absent env-config module; the test suite observes it as
the KILO_PROVIDER key. -/
def PROVIDER_ENV_VAR : String := KILO_PRE ++ "PROVIDER"

/-! ## Data model: CLI configuration -/

/-- A provider entry of the CLI configuration. The kilocode variant uses
builderToken / builderModel / builderOrganizationId; other variants use
apiKey / apiModelId / baseUrl. Absent JSON fields are `none`. -/
structure ProviderEntry where
  id : String
  provider : String
  builderToken : Option String := none
  builderModel : Option String := none
  builderOrganizationId : Option String := none
  apiKey : Option String := none
  apiModelId : Option String := none
  baseUrl : Option String := none
deriving DecidableEq, Repr

/-- The CLI configuration document (fields relevant to the override
resolver, plus representative untouched display fields). -/
structure CLIConfig where
  version : String
  mode : String
  telemetry : Bool
  provider : String
  providers : List ProviderEntry
  theme : String
deriving DecidableEq, Repr

/-- An environment map, as an ordered list of key/value bindings with
unique keys (iteration order is the list order). -/
abbrev EnvList := List (String × String)

/-- First binding of a key in an environment list. -/
def lookupEnv (env : EnvList) (k : String) : Option String :=
  (env.find? (fun kv => kv.1 = k)).map (fun kv => kv.2)

/-! ## Config-Override Resolver (applyEnvOverrides) -/

/-- Fields of the kilocode variant settable from the environment. -/
inductive BuilderField where
  | token
  | model
  | orgId
deriving DecidableEq, Repr

/-- Fields of the generic variants settable from the environment. -/
inductive GenericField where
  | apiKey
  | apiModelId
  | baseUrl
deriving DecidableEq, Repr

/-- Modelled from the spec: which kilocode field, if any, a
builder-prefixed environment variable names (MODEL to builderModel,
ORGANIZATION_ID to builderOrganizationId, TOKEN to builderToken); a
prefix with no following field name matches nothing. -/
def builderFieldOfKey (k : String) : Option BuilderField :=
  if k = BUILDER_PRE ++ "TOKEN" then some BuilderField.token
  else if k = BUILDER_PRE ++ "MODEL" then some BuilderField.model
  else if k = BUILDER_PRE ++ "ORGANIZATION_ID" then some BuilderField.orgId
  else none

/-- Modelled from the spec: which generic-provider field, if any, a
kilo-prefixed environment variable names (API_KEY to apiKey,
API_MODEL_ID to apiModelId, BASE_URL to baseUrl); the provider-selector
variable itself names no field. -/
def genericFieldOfKey (k : String) : Option GenericField :=
  if k = KILO_PRE ++ "API_KEY" then some GenericField.apiKey
  else if k = KILO_PRE ++ "API_MODEL_ID" then some GenericField.apiModelId
  else if k = KILO_PRE ++ "BASE_URL" then some GenericField.baseUrl
  else none

/-- Set one kilocode field on an entry. -/
def setBuilderField (e : ProviderEntry) (f : BuilderField) (v : String) : ProviderEntry :=
  match f with
  | BuilderField.token => { e with builderToken := some v }
  | BuilderField.model => { e with builderModel := some v }
  | BuilderField.orgId => { e with builderOrganizationId := some v }

/-- Set one generic field on an entry. -/
def setGenericField (e : ProviderEntry) (f : GenericField) (v : String) : ProviderEntry :=
  match f with
  | GenericField.apiKey => { e with apiKey := some v }
  | GenericField.apiModelId => { e with apiModelId := some v }
  | GenericField.baseUrl => { e with baseUrl := some v }

/-- One environment binding applied to a kilocode entry: a recognized
builder-prefixed key with a non-empty value sets the named field,
everything else is a no-op. -/
def applyBuilderStep (acc : ProviderEntry) (kv : String × String) : ProviderEntry :=
  match builderFieldOfKey kv.1 with
  | some f => if kv.2 = "" then acc else setBuilderField acc f kv.2
  | none => acc

/-- One environment binding applied to a generic entry. -/
def applyGenericStep (acc : ProviderEntry) (kv : String × String) : ProviderEntry :=
  match genericFieldOfKey kv.1 with
  | some f => if kv.2 = "" then acc else setGenericField acc f kv.2
  | none => acc

/-- Modelled from the spec: all builder-prefixed overrides of the
environment applied, in iteration order, to one kilocode entry. -/
def applyBuilderOverrides (env : EnvList) (e : ProviderEntry) : ProviderEntry :=
  env.foldl applyBuilderStep e

/-- Modelled from the spec: all kilo-prefixed overrides of the
environment applied, in iteration order, to one generic entry. -/
def applyGenericOverrides (env : EnvList) (e : ProviderEntry) : ProviderEntry :=
  env.foldl applyGenericStep e

/-- Modelled from the spec: step 1 of applyEnvOverrides; the selector
value replaces the provider field only when present, non-empty and equal
to an existing entry id. -/
def resolveProviderSelector (config : CLIConfig) (env : EnvList) : String :=
  match lookupEnv env PROVIDER_ENV_VAR with
  | none => config.provider
  | some v =>
    if v = "" then config.provider
    else if config.providers.any (fun e => e.id = v) then v
    else config.provider

/-- Modelled from the spec: applyEnvOverrides of the absent env-config
module. Step 1 resolves the provider selector; step 2 finds the selected
entry (no further change when none exists); steps 3/4 apply the override
family matching the selected entry discriminant to that entry only,
in a copy of the providers sequence. -/
def applyEnvOverrides (config : CLIConfig) (env : EnvList) : CLIConfig :=
  let newProvider := resolveProviderSelector config env
  match config.providers.find? (fun e => e.id = newProvider) with
  | none => { config with provider := newProvider }
  | some sel =>
    if sel.provider = "kilocode" then
      { config with
        provider := newProvider
        providers := config.providers.map (fun e =>
          if e.id = newProvider then applyBuilderOverrides env e else e) }
    else
      { config with
        provider := newProvider
        providers := config.providers.map (fun e =>
          if e.id = newProvider then applyGenericOverrides env e else e) }

/-- An environment key recognized by the resolver: the provider selector
or a prefixed variable naming a known field. -/
def recognizedEnvKey (k : String) : Bool :=
  decide (k = PROVIDER_ENV_VAR) || (builderFieldOfKey k).isSome || (genericFieldOfKey k).isSome

/-! ## Lemmas about the Config-Override Resolver -/

theorem applyEnvOverrides_provider (config : CLIConfig) (env : EnvList) :
    (applyEnvOverrides config env).provider = resolveProviderSelector config env := by
  simp only [applyEnvOverrides]
  cases hf : config.providers.find? (fun e => e.id = resolveProviderSelector config env) with
  | none => simp only [hf]
  | some sel =>
    simp only [hf]
    split <;> rfl

theorem lookupEnv_eq_none_of_unrecognized (env : EnvList)
    (h : ∀ kv ∈ env, recognizedEnvKey kv.1 = false) :
    lookupEnv env PROVIDER_ENV_VAR = none := by
  unfold lookupEnv
  cases hf : env.find? (fun kv => kv.1 = PROVIDER_ENV_VAR) with
  | none => rfl
  | some kv =>
    have hmem : kv ∈ env := List.mem_of_find?_eq_some hf
    have hkey : kv.1 = PROVIDER_ENV_VAR := by
      have := List.find?_some hf
      exact of_decide_eq_true this
    have hrec := h kv hmem
    rw [hkey] at hrec
    simp [recognizedEnvKey] at hrec

theorem applyBuilderOverrides_id (env : EnvList)
    (h : ∀ kv ∈ env, builderFieldOfKey kv.1 = none) (e : ProviderEntry) :
    applyBuilderOverrides env e = e := by
  induction env generalizing e with
  | nil => rfl
  | cons kv tl ih =>
    have h1 : builderFieldOfKey kv.1 = none := h kv (List.mem_cons_self kv tl)
    show (kv :: tl).foldl applyBuilderStep e = e
    rw [List.foldl_cons]
    have hstep : applyBuilderStep e kv = e := by
      unfold applyBuilderStep
      rw [h1]
    rw [hstep]
    exact ih (fun x hx => h x (List.mem_cons_of_mem kv hx)) e

theorem applyGenericOverrides_id (env : EnvList)
    (h : ∀ kv ∈ env, genericFieldOfKey kv.1 = none) (e : ProviderEntry) :
    applyGenericOverrides env e = e := by
  induction env generalizing e with
  | nil => rfl
  | cons kv tl ih =>
    have h1 : genericFieldOfKey kv.1 = none := h kv (List.mem_cons_self kv tl)
    show (kv :: tl).foldl applyGenericStep e = e
    rw [List.foldl_cons]
    have hstep : applyGenericStep e kv = e := by
      unfold applyGenericStep
      rw [h1]
    rw [hstep]
    exact ih (fun x hx => h x (List.mem_cons_of_mem kv hx)) e

/-- C2: applyEnvOverrides with an environment containing no recognized
override key (no provider selector, no builder- or kilo-prefixed variable
naming a known field) returns a configuration value-equal to its input,
including for an empty providers sequence and for a dangling provider
reference. -/
theorem claim_C2 (config : CLIConfig) (env : EnvList)
    (h : ∀ kv ∈ env, recognizedEnvKey kv.1 = false) :
    applyEnvOverrides config env = config := by
  have hb : ∀ kv ∈ env, builderFieldOfKey kv.1 = none := by
    intro kv hkv
    have := h kv hkv
    unfold recognizedEnvKey at this
    rcases Bool.or_eq_false_iff.mp this with ⟨h1, h2⟩
    rcases Bool.or_eq_false_iff.mp h1 with ⟨_, h3⟩
    exact Option.not_isSome_iff_eq_none.mp (by simp [h3])
  have hg : ∀ kv ∈ env, genericFieldOfKey kv.1 = none := by
    intro kv hkv
    have := h kv hkv
    unfold recognizedEnvKey at this
    rcases Bool.or_eq_false_iff.mp this with ⟨_, h2⟩
    exact Option.not_isSome_iff_eq_none.mp (by simp [h2])
  have hsel : resolveProviderSelector config env = config.provider := by
    unfold resolveProviderSelector
    rw [lookupEnv_eq_none_of_unrecognized env h]
  obtain ⟨ver, mo, tel, prov, provs, th⟩ := config
  simp only [applyEnvOverrides, hsel]
  cases hf : provs.find? (fun e => e.id = prov) with
  | none => rfl
  | some sel =>
    simp only
    have hmapb : provs.map (fun e => if e.id = prov then applyBuilderOverrides env e else e)
        = provs := by
      rw [List.map_congr_left (g := id) ?_, List.map_id]
      intro a _
      simp only [id]
      split
      · exact applyBuilderOverrides_id env hb a
      · rfl
    have hmapg : provs.map (fun e => if e.id = prov then applyGenericOverrides env e else e)
        = provs := by
      rw [List.map_congr_left (g := id) ?_, List.map_id]
      intro a _
      simp only [id]
      split
      · exact applyGenericOverrides_id env hg a
      · rfl
    split
    · rw [hmapb]
    · rw [hmapg]

/-- Closed-form instantiation of claim C2 at a concrete configuration and
an environment of only unrecognized keys. -/
theorem claim_C2_witness :
    applyEnvOverrides
      { version := "1.0.0", mode := "code", telemetry := true, provider := "default"
        providers := [{ id := "default", provider := "kilocode",
                        builderToken := some "test-token" }]
        theme := "dark" }
      [("KEEP_ME", "1"), ("BUILDER", "value"), ("PATH", "/usr/bin")]
    = { version := "1.0.0", mode := "code", telemetry := true, provider := "default"
        providers := [{ id := "default", provider := "kilocode",
                        builderToken := some "test-token" }]
        theme := "dark" } :=
  claim_C2 _ _ (by decide)

/-- C5: the resulting provider field equals the selector value exactly when
the selector is present, non-empty, and matches an existing entry id;
when the selector is absent, empty, or dangling, the provider field is
unchanged from the input. -/
theorem claim_C5 (config : CLIConfig) (env : EnvList) :
    (∀ v, lookupEnv env PROVIDER_ENV_VAR = some v → v ≠ "" →
        config.providers.any (fun e => e.id = v) = true →
        (applyEnvOverrides config env).provider = v)
  ∧ (lookupEnv env PROVIDER_ENV_VAR = none →
        (applyEnvOverrides config env).provider = config.provider)
  ∧ (lookupEnv env PROVIDER_ENV_VAR = some "" →
        (applyEnvOverrides config env).provider = config.provider)
  ∧ (∀ v, lookupEnv env PROVIDER_ENV_VAR = some v →
        config.providers.any (fun e => e.id = v) = false →
        (applyEnvOverrides config env).provider = config.provider) := by
  refine ⟨?_, ?_, ?_, ?_⟩
  · intro v h1 h2 h3
    rw [applyEnvOverrides_provider]
    unfold resolveProviderSelector
    rw [h1]
    simp [h2, h3]
  · intro h1
    rw [applyEnvOverrides_provider]
    unfold resolveProviderSelector
    rw [h1]
  · intro h1
    rw [applyEnvOverrides_provider]
    unfold resolveProviderSelector
    rw [h1]
    simp
  · intro v h1 h3
    rw [applyEnvOverrides_provider]
    unfold resolveProviderSelector
    rw [h1]
    simp [h3]

/-- Closed-form instantiation of claim C5 at a concrete configuration:
a selector naming an existing entry wins, a dangling selector is ignored. -/
theorem claim_C5_witness :
    (applyEnvOverrides
      { version := "1.0.0", mode := "code", telemetry := true, provider := "default"
        providers := [{ id := "default", provider := "kilocode" },
                      { id := "anthropic-provider", provider := "anthropic" }]
        theme := "dark" }
      [("KILO_PROVIDER", "anthropic-provider")]).provider = "anthropic-provider" :=
  (claim_C5 _ _).1 "anthropic-provider" (by decide) (by decide) (by decide)

/-! ## Wrong-variant override invariance -/

/-- The environment with every builder-prefixed field variable removed. -/
def dropBuilderVars (env : EnvList) : EnvList :=
  env.filter (fun kv => (builderFieldOfKey kv.1).isNone)

/-- The environment with every kilo-prefixed generic field variable
removed (the provider selector names no field and is kept). -/
def dropGenericVars (env : EnvList) : EnvList :=
  env.filter (fun kv => (genericFieldOfKey kv.1).isNone)

/-- The entry selected by applyEnvOverrides after the selector step. -/
def selectedEntry (config : CLIConfig) (env : EnvList) : Option ProviderEntry :=
  config.providers.find? (fun e => e.id = resolveProviderSelector config env)

theorem genericFieldOfKey_eq_none_of_builder (k : String)
    (h : (builderFieldOfKey k).isSome = true) : genericFieldOfKey k = none := by
  unfold builderFieldOfKey at h
  split at h
  · next heq => subst heq; decide
  · split at h
    · next heq => subst heq; decide
    · split at h
      · next heq => subst heq; decide
      · simp at h

theorem builderFieldOfKey_eq_none_of_generic (k : String)
    (h : (genericFieldOfKey k).isSome = true) : builderFieldOfKey k = none := by
  unfold genericFieldOfKey at h
  split at h
  · next heq => subst heq; decide
  · split at h
    · next heq => subst heq; decide
    · split at h
      · next heq => subst heq; decide
      · simp at h

theorem lookupEnv_filter (env : EnvList) (p : String × String → Bool) (k : String)
    (h : ∀ kv ∈ env, kv.1 = k → p kv = true) :
    lookupEnv (env.filter p) k = lookupEnv env k := by
  induction env with
  | nil => rfl
  | cons kv tl ih =>
    have ih2 := ih (fun x hx hk => h x (List.mem_cons_of_mem kv hx) hk)
    by_cases hk : kv.1 = k
    · have hp : p kv = true := h kv (List.mem_cons_self kv tl) hk
      unfold lookupEnv
      rw [List.filter_cons, if_pos hp]
      simp [List.find?_cons, hk]
    · by_cases hp : p kv = true
      · unfold lookupEnv at ih2 ⊢
        rw [List.filter_cons, if_pos hp]
        simpa [List.find?_cons, hk] using ih2
      · unfold lookupEnv at ih2 ⊢
        rw [List.filter_cons, if_neg hp]
        simpa [List.find?_cons, hk] using ih2

theorem foldl_filter_triv {α : Type} (step : α → String × String → α)
    (p : String × String → Bool) (env : EnvList)
    (h : ∀ kv ∈ env, p kv = false → ∀ acc, step acc kv = acc) (a : α) :
    (env.filter p).foldl step a = env.foldl step a := by
  induction env generalizing a with
  | nil => rfl
  | cons kv tl ih =>
    have ih2 := fun acc => ih (fun x hx hf => h x (List.mem_cons_of_mem kv hx) hf) acc
    rw [List.filter_cons]
    by_cases hp : p kv = true
    · rw [if_pos hp, List.foldl_cons, List.foldl_cons]
      exact ih2 (step a kv)
    · have hf : p kv = false := by
        cases hpv : p kv
        · rfl
        · exact absurd hpv hp
      rw [if_neg hp, List.foldl_cons, h kv (List.mem_cons_self kv tl) hf a]
      exact ih2 a

theorem resolveProviderSelector_dropBuilder (config : CLIConfig) (env : EnvList) :
    resolveProviderSelector config (dropBuilderVars env) = resolveProviderSelector config env := by
  unfold resolveProviderSelector dropBuilderVars
  rw [lookupEnv_filter]
  intro kv _ hk
  rw [hk]
  decide

theorem resolveProviderSelector_dropGeneric (config : CLIConfig) (env : EnvList) :
    resolveProviderSelector config (dropGenericVars env) = resolveProviderSelector config env := by
  unfold resolveProviderSelector dropGenericVars
  rw [lookupEnv_filter]
  intro kv _ hk
  rw [hk]
  decide

theorem applyGenericOverrides_dropBuilder (env : EnvList) (e : ProviderEntry) :
    applyGenericOverrides (dropBuilderVars env) e = applyGenericOverrides env e := by
  unfold applyGenericOverrides dropBuilderVars
  apply foldl_filter_triv
  intro kv _ hf acc
  have hsome : (builderFieldOfKey kv.1).isSome = true := by
    cases hb : builderFieldOfKey kv.1
    · simp [hb] at hf
    · rfl
  have hg := genericFieldOfKey_eq_none_of_builder kv.1 hsome
  unfold applyGenericStep
  rw [hg]

theorem applyBuilderOverrides_dropGeneric (env : EnvList) (e : ProviderEntry) :
    applyBuilderOverrides (dropGenericVars env) e = applyBuilderOverrides env e := by
  unfold applyBuilderOverrides dropGenericVars
  apply foldl_filter_triv
  intro kv _ hf acc
  have hsome : (genericFieldOfKey kv.1).isSome = true := by
    cases hb : genericFieldOfKey kv.1
    · simp [hb] at hf
    · rfl
  have hb2 := builderFieldOfKey_eq_none_of_generic kv.1 hsome
  unfold applyBuilderStep
  rw [hb2]

/-- C6: builder-prefixed variables never change any field of a selected
non-kilocode entry, and kilo-prefixed generic variables never change any
field of a selected kilocode entry: dropping the wrong-variant variables
from the environment, in any position of the iteration order, leaves the
whole result unchanged. -/
theorem claim_C6 (config : CLIConfig) (env : EnvList) :
    (∀ sel, selectedEntry config env = some sel → sel.provider ≠ "kilocode" →
        applyEnvOverrides config (dropBuilderVars env) = applyEnvOverrides config env)
  ∧ (∀ sel, selectedEntry config env = some sel → sel.provider = "kilocode" →
        applyEnvOverrides config (dropGenericVars env) = applyEnvOverrides config env) := by
  constructor
  · intro sel hsel hk
    unfold selectedEntry at hsel
    simp only [applyEnvOverrides, resolveProviderSelector_dropBuilder, hsel]
    rw [if_neg hk, if_neg hk]
    congr 1
    apply List.map_congr_left
    intro e _
    split
    · exact applyGenericOverrides_dropBuilder env e
    · rfl
  · intro sel hsel hk
    unfold selectedEntry at hsel
    simp only [applyEnvOverrides, resolveProviderSelector_dropGeneric, hsel]
    rw [if_pos hk, if_pos hk]
    congr 1
    apply List.map_congr_left
    intro e _
    split
    · exact applyBuilderOverrides_dropGeneric env e
    · rfl

/-- Closed-form instantiation of claim C6: with the anthropic entry
selected, dropping the builder-prefixed variable changes nothing. -/
theorem claim_C6_witness :
    applyEnvOverrides
      { version := "1.0.0", mode := "code", telemetry := true, provider := "anthropic-provider"
        providers := [{ id := "anthropic-provider", provider := "anthropic",
                        apiKey := some "test-key" }]
        theme := "dark" }
      (dropBuilderVars [("BUILDER_MODEL", "should-not-apply")])
    = applyEnvOverrides
      { version := "1.0.0", mode := "code", telemetry := true, provider := "anthropic-provider"
        providers := [{ id := "anthropic-provider", provider := "anthropic",
                        apiKey := some "test-key" }]
        theme := "dark" }
      [("BUILDER_MODEL", "should-not-apply")] :=
  (claim_C6 _ _).1
    { id := "anthropic-provider", provider := "anthropic", apiKey := some "test-key" }
    (by decide) (by decide)

/-! ## Provider-Env Mapper (buildProviderEnvOverrides) -/

/-- IDE-side provider settings, restricted to the fields the mapper reads. -/
structure ExtProviderSettings where
  apiProvider : Option String := none
  builderToken : Option String := none
  builderModel : Option String := none
  builderOrganizationId : Option String := none
  builderTesterWarningsDisabledUntil : Option Nat := none
deriving DecidableEq, Repr

/-- State of the CLI configuration file at its fixed path under the home
directory: absent, present but not parsable as a configuration, or parsed. -/
inductive CliConfigFile where
  | missing
  | unparsable
  | parsed (cfg : CLIConfig)
deriving DecidableEq, Repr

/-- First provider entry with the kilocode discriminant in a parsed
CLI configuration. -/
def findKilocodeEntry (cfg : CLIConfig) : Option ProviderEntry :=
  cfg.providers.find? (fun e => e.provider = "kilocode")

/-- Modelled from the spec: the dedicated subdirectory the mapper
redirects the home/user-profile directory to in fallback mode; the test
suite observes it as the builder-agent-manager-home subdirectory of the
original home. -/
def agentHomeRedirect (home : String) : String :=
  home ++ "/builder-agent-manager-home"

/-- Modelled from the spec: the env-config-mode override list of the
absent providerEnvMapper module: the kilo-prefixed provider-type
selector, the builder token, and the builder model and organization id
when present in the settings. -/
def envConfigOverrides (s : ExtProviderSettings) (tok : String) : List (String × String) :=
  [(KILO_PRE ++ "PROVIDER_TYPE", "kilocode"), (BUILDER_PRE ++ "TOKEN", tok)]
  ++ (match s.builderModel with
      | some m => [(BUILDER_PRE ++ "MODEL", m)]
      | none => [])
  ++ (match s.builderOrganizationId with
      | some o => [(BUILDER_PRE ++ "ORGANIZATION_ID", o)]
      | none => [])

/-- Modelled from the spec: the home/user-profile redirect emitted in
fallback mode when a CLI configuration file exists at the original
location. -/
def homeRedirectOverrides (home : String) : List (String × String) :=
  [("HOME", agentHomeRedirect home), ("USERPROFILE", agentHomeRedirect home)]

/-- Modelled from the spec: buildProviderEnvOverrides of the absent
providerEnvMapper module (only its test suite is under the sources).
Settings absent, non-kilocode, or with an empty token yield no overrides;
a parsed CLI configuration containing a kilocode entry yields
switch-to-existing-entry mode (selector plus token only); otherwise
env-config mode, with the home redirect exactly when a configuration
file exists at the original location. -/
def buildProviderEnvOverrides (settings : Option ExtProviderSettings)
    (home : String) (file : CliConfigFile) : List (String × String) :=
  match settings with
  | none => []
  | some s =>
    if s.apiProvider = some "kilocode" then
      match s.builderToken with
      | none => []
      | some tok =>
        if tok = "" then []
        else
          match file with
          | CliConfigFile.parsed cfg =>
            match findKilocodeEntry cfg with
            | some e => [(PROVIDER_ENV_VAR, e.id), (BUILDER_PRE ++ "TOKEN", tok)]
            | none => envConfigOverrides s tok ++ homeRedirectOverrides home
          | CliConfigFile.unparsable => envConfigOverrides s tok ++ homeRedirectOverrides home
          | CliConfigFile.missing => envConfigOverrides s tok
    else []

/-- First value bound to a key in an override map. -/
def lookupOv (m : List (String × String)) (k : String) : Option String :=
  (m.find? (fun kv => kv.1 = k)).map (fun kv => kv.2)

theorem lookupOv_envConfig_token (s : ExtProviderSettings) (tok : String)
    (rest : List (String × String)) :
    lookupOv (envConfigOverrides s tok ++ rest) (BUILDER_PRE ++ "TOKEN") = some tok := by
  cases hm : s.builderModel <;> cases ho : s.builderOrganizationId <;>
    simp [lookupOv, envConfigOverrides, hm, ho, List.find?_cons, BUILDER_PRE, KILO_PRE]

theorem lookupOv_envConfig_model (s : ExtProviderSettings) (tok m : String)
    (rest : List (String × String)) (hm : s.builderModel = some m) :
    lookupOv (envConfigOverrides s tok ++ rest) (BUILDER_PRE ++ "MODEL") = some m := by
  cases ho : s.builderOrganizationId <;>
    simp [lookupOv, envConfigOverrides, hm, ho, List.find?_cons, BUILDER_PRE, KILO_PRE]

theorem lookupOv_envConfig_org (s : ExtProviderSettings) (tok o : String)
    (rest : List (String × String)) (ho : s.builderOrganizationId = some o) :
    lookupOv (envConfigOverrides s tok ++ rest) (BUILDER_PRE ++ "ORGANIZATION_ID") = some o := by
  cases hm : s.builderModel <;>
    simp [lookupOv, envConfigOverrides, hm, ho, List.find?_cons, BUILDER_PRE, KILO_PRE]

theorem lookupOv_envConfig_home_redirect (s : ExtProviderSettings) (tok home : String) :
    lookupOv (envConfigOverrides s tok ++ homeRedirectOverrides home) "HOME"
        = some (agentHomeRedirect home)
    ∧ lookupOv (envConfigOverrides s tok ++ homeRedirectOverrides home) "USERPROFILE"
        = some (agentHomeRedirect home) := by
  cases hm : s.builderModel <;> cases ho : s.builderOrganizationId <;>
    simp [lookupOv, envConfigOverrides, homeRedirectOverrides, hm, ho, List.find?_cons,
      BUILDER_PRE, KILO_PRE]

theorem lookupOv_envConfig_home_none (s : ExtProviderSettings) (tok : String) :
    lookupOv (envConfigOverrides s tok) "HOME" = none
    ∧ lookupOv (envConfigOverrides s tok) "USERPROFILE" = none := by
  cases hm : s.builderModel <;> cases ho : s.builderOrganizationId <;>
    simp [lookupOv, envConfigOverrides, hm, ho, List.find?_cons, BUILDER_PRE, KILO_PRE]

/-- C1: for kilocode provider settings with a non-empty token, the mapper
produces exactly one of three override maps. With a parsed CLI
configuration containing a kilocode entry: the provider selector set to
that entry id plus the token, and no model, organization or home keys.
With a configuration file present but without a kilocode entry, or
unparsable: the builder-prefixed token, model and (when present)
organization overrides plus the home and user-profile redirect. With no
configuration file: the builder-prefixed overrides and no home keys. -/
theorem claim_C1 (s : ExtProviderSettings) (tok home : String) (file : CliConfigFile)
    (hp : s.apiProvider = some "kilocode") (ht : s.builderToken = some tok)
    (hne : tok ≠ "") :
    (∀ cfg e, file = CliConfigFile.parsed cfg → findKilocodeEntry cfg = some e →
      lookupOv (buildProviderEnvOverrides (some s) home file) PROVIDER_ENV_VAR = some e.id
      ∧ lookupOv (buildProviderEnvOverrides (some s) home file) (BUILDER_PRE ++ "TOKEN") = some tok
      ∧ lookupOv (buildProviderEnvOverrides (some s) home file) (BUILDER_PRE ++ "MODEL") = none
      ∧ lookupOv (buildProviderEnvOverrides (some s) home file) (BUILDER_PRE ++ "ORGANIZATION_ID") = none
      ∧ lookupOv (buildProviderEnvOverrides (some s) home file) "HOME" = none
      ∧ lookupOv (buildProviderEnvOverrides (some s) home file) "USERPROFILE" = none)
  ∧ (∀ cfg, file = CliConfigFile.parsed cfg → findKilocodeEntry cfg = none →
      buildProviderEnvOverrides (some s) home file
        = envConfigOverrides s tok ++ homeRedirectOverrides home
      ∧ lookupOv (buildProviderEnvOverrides (some s) home file) (BUILDER_PRE ++ "TOKEN") = some tok
      ∧ (∀ m, s.builderModel = some m →
          lookupOv (buildProviderEnvOverrides (some s) home file) (BUILDER_PRE ++ "MODEL") = some m)
      ∧ (∀ o, s.builderOrganizationId = some o →
          lookupOv (buildProviderEnvOverrides (some s) home file) (BUILDER_PRE ++ "ORGANIZATION_ID") = some o)
      ∧ lookupOv (buildProviderEnvOverrides (some s) home file) "HOME" = some (agentHomeRedirect home)
      ∧ lookupOv (buildProviderEnvOverrides (some s) home file) "USERPROFILE" = some (agentHomeRedirect home))
  ∧ (file = CliConfigFile.unparsable →
      buildProviderEnvOverrides (some s) home file
        = envConfigOverrides s tok ++ homeRedirectOverrides home)
  ∧ (file = CliConfigFile.missing →
      buildProviderEnvOverrides (some s) home file = envConfigOverrides s tok
      ∧ lookupOv (buildProviderEnvOverrides (some s) home file) (BUILDER_PRE ++ "TOKEN") = some tok
      ∧ (∀ m, s.builderModel = some m →
          lookupOv (buildProviderEnvOverrides (some s) home file) (BUILDER_PRE ++ "MODEL") = some m)
      ∧ (∀ o, s.builderOrganizationId = some o →
          lookupOv (buildProviderEnvOverrides (some s) home file) (BUILDER_PRE ++ "ORGANIZATION_ID") = some o)
      ∧ lookupOv (buildProviderEnvOverrides (some s) home file) "HOME" = none
      ∧ lookupOv (buildProviderEnvOverrides (some s) home file) "USERPROFILE" = none) := by
  refine ⟨?_, ?_, ?_, ?_⟩
  · intro cfg e hf hk
    subst hf
    have hb : buildProviderEnvOverrides (some s) home (CliConfigFile.parsed cfg)
        = [(PROVIDER_ENV_VAR, e.id), (BUILDER_PRE ++ "TOKEN", tok)] := by
      simp [buildProviderEnvOverrides, hp, ht, hne, hk]
    rw [hb]
    refine ⟨?_, ?_, ?_, ?_, ?_, ?_⟩ <;>
      simp [lookupOv, List.find?_cons, PROVIDER_ENV_VAR, BUILDER_PRE, KILO_PRE]
  · intro cfg hf hk
    subst hf
    have hb : buildProviderEnvOverrides (some s) home (CliConfigFile.parsed cfg)
        = envConfigOverrides s tok ++ homeRedirectOverrides home := by
      simp [buildProviderEnvOverrides, hp, ht, hne, hk]
    rw [hb]
    exact ⟨rfl, lookupOv_envConfig_token s tok _,
      fun m hm => lookupOv_envConfig_model s tok m _ hm,
      fun o ho => lookupOv_envConfig_org s tok o _ ho,
      (lookupOv_envConfig_home_redirect s tok home).1,
      (lookupOv_envConfig_home_redirect s tok home).2⟩
  · intro hf
    subst hf
    simp [buildProviderEnvOverrides, hp, ht, hne]
  · intro hf
    subst hf
    have hb : buildProviderEnvOverrides (some s) home CliConfigFile.missing
        = envConfigOverrides s tok := by
      simp [buildProviderEnvOverrides, hp, ht, hne]
    rw [hb]
    have h0 : envConfigOverrides s tok = envConfigOverrides s tok ++ [] :=
      (List.append_nil _).symm
    refine ⟨rfl, ?_, ?_, ?_, (lookupOv_envConfig_home_none s tok).1,
      (lookupOv_envConfig_home_none s tok).2⟩
    · rw [h0]; exact lookupOv_envConfig_token s tok []
    · intro m hm; rw [h0]; exact lookupOv_envConfig_model s tok m [] hm
    · intro o ho; rw [h0]; exact lookupOv_envConfig_org s tok o [] ho

/-- Closed-form instantiation of claim C1 in switch-to-existing-entry
mode at the test suite scenario. -/
theorem claim_C1_witness :
    lookupOv (buildProviderEnvOverrides
        (some { apiProvider := some "kilocode", builderToken := some "ext-token" })
        "/home/u"
        (CliConfigFile.parsed
          { version := "1.0.0", mode := "code", telemetry := true, provider := "anthropic"
            providers := [{ id := "anthropic", provider := "anthropic", apiKey := some "x" },
                          { id := "kilo-1", provider := "kilocode", builderToken := some "" }]
            theme := "dark" }))
      PROVIDER_ENV_VAR = some "kilo-1" := by
  have h := (claim_C1
    { apiProvider := some "kilocode", builderToken := some "ext-token" }
    "ext-token" "/home/u"
    (CliConfigFile.parsed
      { version := "1.0.0", mode := "code", telemetry := true, provider := "anthropic"
        providers := [{ id := "anthropic", provider := "anthropic", apiKey := some "x" },
                      { id := "kilo-1", provider := "kilocode", builderToken := some "" }]
        theme := "dark" })
    rfl rfl (by decide)).1
    _ { id := "kilo-1", provider := "kilocode", builderToken := some "" } rfl (by decide)
  exact h.1

/-- C9: the mapper returns the empty override map when the settings are
absent, when the discriminant is not kilocode, and when the builder token
is empty or absent. -/
theorem claim_C9 :
    (∀ home file, buildProviderEnvOverrides none home file = [])
  ∧ (∀ s home file, s.apiProvider ≠ some "kilocode" →
      buildProviderEnvOverrides (some s) home file = [])
  ∧ (∀ s home file, s.builderToken = some "" ∨ s.builderToken = none →
      buildProviderEnvOverrides (some s) home file = []) := by
  refine ⟨fun home file => rfl, ?_, ?_⟩
  · intro s home file hns
    simp [buildProviderEnvOverrides, hns]
  · intro s home file ht
    by_cases hp : s.apiProvider = some "kilocode"
    · rcases ht with ht | ht <;> simp [buildProviderEnvOverrides, hp, ht]
    · simp [buildProviderEnvOverrides, hp]

/-- Closed-form instantiation of claim C9 at the test suite scenario of
kilocode settings with an empty token. -/
theorem claim_C9_witness :
    buildProviderEnvOverrides
      (some { apiProvider := some "kilocode", builderToken := some "" })
      "/home/u" CliConfigFile.missing = [] :=
  claim_C9.2.2 { apiProvider := some "kilocode", builderToken := some "" }
    "/home/u" CliConfigFile.missing (Or.inl rfl)

/-! ## Default-Model Resolver (getKilocodeDefaultModel) -/

/-- External constant openRouterDefaultModelId imported by the resolver
from the types package; its exact value is irrelevant to the claims, any
fixed non-empty id stands for it. -/
def openRouterDefaultModelId : String := "anthropic/claude-sonnet-4"

/-- Outcome of the single defaults fetch as the resolver observes it:
a thrown network error (including the 5-second abort), or a response with
an ok flag and a body. The body is none when it violates the defaults
schema, and otherwise carries the optional defaultModel string (none for
a missing or null field). -/
inductive DefaultsFetchOutcome where
  | netError
  | response (ok : Bool) (body : Option (Option String))
deriving DecidableEq, Repr

/-- fetchKilocodeDefaultModel: the try block returns the fetched
defaultModel, and every failure path (thrown fetch, non-ok status, schema
violation, missing or empty defaultModel) is caught and resolves to the
hardcoded default id. -/
def fetchKilocodeDefaultModel (outcome : DefaultsFetchOutcome) : String :=
  match outcome with
  | DefaultsFetchOutcome.netError => openRouterDefaultModelId
  | DefaultsFetchOutcome.response ok body =>
    if ok = false then openRouterDefaultModelId
    else
      match body with
      | none => openRouterDefaultModelId
      | some none => openRouterDefaultModelId
      | some (some m) => if m = "" then openRouterDefaultModelId else m

/-- The composite cache key: token, organization id, and the raw
tester-suppression expiry value from the provider settings. -/
structure DefaultModelKey where
  builderToken : String
  organizationId : Option String
  testerSuppressed : Option Nat
deriving DecidableEq, Repr

/-- The process-lifetime cache of resolved default-model outcomes. -/
abbrev DefaultModelCache := List (DefaultModelKey × String)

/-- First cached outcome for a key. -/
def cacheLookup (cache : DefaultModelCache) (k : DefaultModelKey) : Option String :=
  (cache.find? (fun kv => kv.1 = k)).map (fun kv => kv.2)

/-- getKilocodeDefaultModel: a falsy token (absent or empty) resolves to
the hardcoded default with no fetch; otherwise the composite key is
looked up and, on a miss, one fetch runs and its outcome (fallback
included) is stored for the process lifetime. Returns the resolved model
id, the updated cache, and the number of network fetches issued. -/
def getKilocodeDefaultModel (builderToken : Option String)
    (organizationId : Option String) (testerExpiry : Option Nat)
    (outcome : DefaultsFetchOutcome) (cache : DefaultModelCache) :
    String × DefaultModelCache × Nat :=
  match builderToken with
  | none => (openRouterDefaultModelId, cache, 0)
  | some t =>
    if t = "" then (openRouterDefaultModelId, cache, 0)
    else
      let key : DefaultModelKey := ⟨t, organizationId, testerExpiry⟩
      match cacheLookup cache key with
      | some v => (v, cache, 0)
      | none =>
        let v := fetchKilocodeDefaultModel outcome
        (v, (key, v) :: cache, 1)

/-- C4: per (token, organization id, tester-suppression expiry) key, at
most one fetch is ever issued: the first call issues at most one fetch
and stores its outcome under the key, and any later call with the same
triple, whatever its own fetch outcome would be, returns the stored
outcome (the fallback included), issues no fetch, and leaves the cache
unchanged. -/
theorem claim_C4 (t : String) (orgId : Option String) (exp1 : Option Nat)
    (out1 out2 : DefaultsFetchOutcome) (cache : DefaultModelCache)
    (hne : t ≠ "") :
    (getKilocodeDefaultModel (some t) orgId exp1 out1 cache).2.2 ≤ 1
    ∧ getKilocodeDefaultModel (some t) orgId exp1 out2
        (getKilocodeDefaultModel (some t) orgId exp1 out1 cache).2.1
      = ((getKilocodeDefaultModel (some t) orgId exp1 out1 cache).1,
         (getKilocodeDefaultModel (some t) orgId exp1 out1 cache).2.1, 0) := by
  have hkey : ∀ v : String,
      cacheLookup (((⟨t, orgId, exp1⟩ : DefaultModelKey), v) :: cache)
        ⟨t, orgId, exp1⟩ = some v := by
    intro v
    simp [cacheLookup, List.find?_cons]
  cases hc : cacheLookup cache ⟨t, orgId, exp1⟩ with
  | none =>
    constructor
    · simp [getKilocodeDefaultModel, hne, hc]
    · simp [getKilocodeDefaultModel, hne, hc, hkey]
  | some v =>
    constructor
    · simp [getKilocodeDefaultModel, hne, hc]
    · simp [getKilocodeDefaultModel, hne, hc]

/-- Closed-form instantiation of claim C4: a cold cache, a failing first
fetch, and a would-succeed second fetch still reuse the cached fallback
with no second fetch. -/
theorem claim_C4_witness :
    (getKilocodeDefaultModel (some "tok") (some "org") (some 5)
      DefaultsFetchOutcome.netError []).2.2 ≤ 1
    ∧ getKilocodeDefaultModel (some "tok") (some "org") (some 5)
        (DefaultsFetchOutcome.response true (some (some "other/model")))
        (getKilocodeDefaultModel (some "tok") (some "org") (some 5)
          DefaultsFetchOutcome.netError []).2.1
      = ((getKilocodeDefaultModel (some "tok") (some "org") (some 5)
            DefaultsFetchOutcome.netError []).1,
         (getKilocodeDefaultModel (some "tok") (some "org") (some 5)
            DefaultsFetchOutcome.netError []).2.1, 0) :=
  claim_C4 "tok" (some "org") (some 5) DefaultsFetchOutcome.netError
    (DefaultsFetchOutcome.response true (some (some "other/model"))) [] (by decide)

/-- Failure predicate on a defaults fetch outcome: thrown fetch, non-ok
status, schema violation, or a missing or empty defaultModel field. -/
def defaultsFetchFailed (outcome : DefaultsFetchOutcome) : Bool :=
  match outcome with
  | DefaultsFetchOutcome.netError => true
  | DefaultsFetchOutcome.response ok body =>
    !ok || body = none || body = some none || body = some (some "")

/-- C7: the resolver never rejects. A falsy token (absent or empty)
returns the hardcoded default immediately with zero fetches; on any cache
miss whose fetch fails (network error, non-ok status, schema violation,
or empty defaultModel) the resolved value is the hardcoded default. -/
theorem claim_C7 :
    (∀ orgId exp1 outcome cache,
      getKilocodeDefaultModel none orgId exp1 outcome cache
        = (openRouterDefaultModelId, cache, 0))
  ∧ (∀ orgId exp1 outcome cache,
      getKilocodeDefaultModel (some "") orgId exp1 outcome cache
        = (openRouterDefaultModelId, cache, 0))
  ∧ (∀ outcome, defaultsFetchFailed outcome = true →
      fetchKilocodeDefaultModel outcome = openRouterDefaultModelId)
  ∧ (∀ t orgId exp1 outcome cache, t ≠ "" →
      cacheLookup cache ⟨t, orgId, exp1⟩ = none →
      defaultsFetchFailed outcome = true →
      (getKilocodeDefaultModel (some t) orgId exp1 outcome cache).1
        = openRouterDefaultModelId) := by
  have hfail : ∀ outcome, defaultsFetchFailed outcome = true →
      fetchKilocodeDefaultModel outcome = openRouterDefaultModelId := by
    intro outcome h
    cases outcome with
    | netError => rfl
    | response ok body =>
      unfold defaultsFetchFailed at h
      unfold fetchKilocodeDefaultModel
      cases ok with
      | false => rfl
      | true =>
        simp only [Bool.not_true, Bool.false_or] at h
        cases body with
        | none => rfl
        | some d =>
          cases d with
          | none => rfl
          | some m =>
            simp at h
            simp [h]
  refine ⟨fun _ _ _ _ => rfl, fun _ _ _ _ => rfl, hfail, ?_⟩
  intro t orgId exp1 outcome cache hne hc hf
  simp [getKilocodeDefaultModel, hne, hc, hfail outcome hf]

/-- Closed-form instantiation of claim C7: an empty defaultModel on an ok
response resolves to the hardcoded default on a cold cache. -/
theorem claim_C7_witness :
    (getKilocodeDefaultModel (some "tok") none none
      (DefaultsFetchOutcome.response true (some (some ""))) []).1
      = openRouterDefaultModelId :=
  claim_C7.2.2.2 "tok" none none
    (DefaultsFetchOutcome.response true (some (some ""))) []
    (by decide) (by decide) (by decide)

/-! ## Balance Checker (checkKilocodeBalance) -/

/-- Outcome of the single balance fetch as checkKilocodeBalance observes
it: a thrown network error, or a response with an ok flag and a body; the
body is none when reading the JSON throws, and otherwise carries the
optional numeric balance field. -/
inductive BalanceFetchOutcome where
  | netError
  | response (ok : Bool) (body : Option (Option Rat))
deriving DecidableEq, Repr

/-- checkKilocodeBalance: the whole operation sits in a try/catch that
resolves any thrown error to false; a non-ok status returns false; the
balance field defaults to 0 when absent, and the result is balance > 0. -/
def checkKilocodeBalance (outcome : BalanceFetchOutcome) : Bool :=
  match outcome with
  | BalanceFetchOutcome.netError => false
  | BalanceFetchOutcome.response ok body =>
    if ok = false then false
    else
      match body with
      | none => false
      | some bal => decide (bal.getD 0 > 0)

/-- C8: the balance check never throws (it is a total Bool-valued
function of the fetch outcome), returns false on a thrown network error,
on a non-ok status, and on an absent or zero balance, and returns true
exactly for an ok response whose parsed balance is strictly positive. -/
theorem claim_C8 :
    (checkKilocodeBalance BalanceFetchOutcome.netError = false)
  ∧ (∀ body, checkKilocodeBalance (BalanceFetchOutcome.response false body) = false)
  ∧ (∀ ok, checkKilocodeBalance (BalanceFetchOutcome.response ok (some none)) = false)
  ∧ (∀ ok, checkKilocodeBalance (BalanceFetchOutcome.response ok (some (some 0))) = false)
  ∧ (∀ outcome, checkKilocodeBalance outcome = true ↔
      ∃ b : Rat, 0 < b ∧ outcome = BalanceFetchOutcome.response true (some (some b))) := by
  refine ⟨rfl, fun body => rfl, ?_, ?_, ?_⟩
  · intro ok
    cases ok <;> simp [checkKilocodeBalance]
  · intro ok
    cases ok <;> simp [checkKilocodeBalance]
  · intro outcome
    constructor
    · intro h
      cases outcome with
      | netError => exact absurd h (by simp [checkKilocodeBalance])
      | response ok body =>
        cases ok with
        | false => exact absurd h (by simp [checkKilocodeBalance])
        | true =>
          cases body with
          | none => exact absurd h (by simp [checkKilocodeBalance])
          | some bal =>
            cases bal with
            | none =>
              exact absurd h (by simp [checkKilocodeBalance])
            | some b =>
              refine ⟨b, ?_, rfl⟩
              have := of_decide_eq_true (by simpa [checkKilocodeBalance] using h)
              simpa using this
    · rintro ⟨b, hb, rfl⟩
      simp [checkKilocodeBalance, hb]

/-- Closed-form instantiation of claim C8 covering the 404, zero-balance
and positive-balance rows of the test matrix. -/
theorem claim_C8_witness :
    checkKilocodeBalance (BalanceFetchOutcome.response false (some (some 7))) = false
    ∧ checkKilocodeBalance (BalanceFetchOutcome.response true (some (some 0))) = false
    ∧ checkKilocodeBalance (BalanceFetchOutcome.response true (some (some 7))) = true :=
  ⟨claim_C8.2.1 (some (some 7)), claim_C8.2.2.2.1 true,
    (claim_C8.2.2.2.2 (BalanceFetchOutcome.response true (some (some 7)))).mpr
      ⟨7, by norm_num, rfl⟩⟩

/-! ## Organization-Modes Refresher -/

/-- Opaque JavaScript error value. -/
inductive JsErr where
  | err (msg : String)
deriving DecidableEq, Repr

/-- JavaScript truthiness of an optional string (undefined and the empty
string are falsy). -/
def truthy (s : Option String) : Bool :=
  match s with
  | none => false
  | some v => v ≠ ""

/-- Calls the refreshers make on their collaborators, in order. -/
inductive OrgEffect where
  | fetchModes
  | mergeModes (orgModes : List String)
  | getModes
  | updateState (customModes : List String)
deriving DecidableEq, Repr

/-- Outcomes of the collaborator calls of one refresh run: the
organization-modes fetch, the merge into the custom-mode store, the
re-read of the merged list, and the global-state update (modes are
opaque; a mode is modelled by its slug). -/
structure OrgWorld where
  fetchResult : Except JsErr (List String)
  mergeResult : Except JsErr Unit
  getModesResult : Except JsErr (List String)
  updateResult : Except JsErr Unit
deriving Repr

/-- The try block of refreshOrganizationModes: fetch, merge, re-read,
update, sequenced with JavaScript exception propagation; returns the
calls made and the block's outcome. -/
def refreshOrgModesTry (w : OrgWorld) : List OrgEffect × Except JsErr Unit :=
  match w.fetchResult with
  | Except.error e => ([OrgEffect.fetchModes], Except.error e)
  | Except.ok orgModes =>
    match w.mergeResult with
    | Except.error e =>
      ([OrgEffect.fetchModes, OrgEffect.mergeModes orgModes], Except.error e)
    | Except.ok _ =>
      match w.getModesResult with
      | Except.error e =>
        ([OrgEffect.fetchModes, OrgEffect.mergeModes orgModes, OrgEffect.getModes],
         Except.error e)
      | Except.ok customModes =>
        match w.updateResult with
        | Except.error e =>
          ([OrgEffect.fetchModes, OrgEffect.mergeModes orgModes, OrgEffect.getModes,
            OrgEffect.updateState customModes], Except.error e)
        | Except.ok _ =>
          ([OrgEffect.fetchModes, OrgEffect.mergeModes orgModes, OrgEffect.getModes,
            OrgEffect.updateState customModes], Except.ok ())

/-- refreshOrganizationModes: runs only when the message carries a truthy
builder token; the whole body is inside a try whose catch logs and
swallows, so the operation itself always completes normally. -/
def refreshOrganizationModes (msgToken : Option String) (w : OrgWorld) :
    List OrgEffect × Except JsErr Unit :=
  if truthy msgToken then
    match refreshOrgModesTry w with
    | (trace, Except.error _) => (trace, Except.ok ())
    | (trace, Except.ok _) => (trace, Except.ok ())
  else ([], Except.ok ())

/-- The try block of fetchAndRefreshOrganizationModesOnStartup: fetch,
then merge, re-read and update only when the fetched list is non-empty. -/
def fetchAndRefreshStartupTry (w : OrgWorld) : List OrgEffect × Except JsErr Unit :=
  match w.fetchResult with
  | Except.error e => ([OrgEffect.fetchModes], Except.error e)
  | Except.ok orgModes =>
    if orgModes.length > 0 then
      match w.mergeResult with
      | Except.error e =>
        ([OrgEffect.fetchModes, OrgEffect.mergeModes orgModes], Except.error e)
      | Except.ok _ =>
        match w.getModesResult with
        | Except.error e =>
          ([OrgEffect.fetchModes, OrgEffect.mergeModes orgModes, OrgEffect.getModes],
           Except.error e)
        | Except.ok customModes =>
          match w.updateResult with
          | Except.error e =>
            ([OrgEffect.fetchModes, OrgEffect.mergeModes orgModes, OrgEffect.getModes,
              OrgEffect.updateState customModes], Except.error e)
          | Except.ok _ =>
            ([OrgEffect.fetchModes, OrgEffect.mergeModes orgModes, OrgEffect.getModes,
              OrgEffect.updateState customModes], Except.ok ())
    else ([OrgEffect.fetchModes], Except.ok ())

/-- fetchAndRefreshOrganizationModesOnStartup: runs only when the startup
state carries a truthy builder token and a truthy organization id; the
body is inside a try whose catch logs and swallows. -/
def fetchAndRefreshOrganizationModesOnStartup (token orgId : Option String)
    (w : OrgWorld) : List OrgEffect × Except JsErr Unit :=
  if truthy token && truthy orgId then
    match fetchAndRefreshStartupTry w with
    | (trace, Except.error _) => (trace, Except.ok ())
    | (trace, Except.ok _) => (trace, Except.ok ())
  else ([], Except.ok ())

/-! ## Identity Manager -/

/-- The persisted identity file payload. -/
structure StoredIdentity where
  cliUserId : String
  createdAt : Nat
  lastUsed : Nat
deriving DecidableEq, Repr

/-- Outcomes of the collaborator calls of one IdentityManager run:
directory creation, file existence, JSON read (none when the payload
fails isValidStoredIdentity), JSON write, the crypto randomUUID source,
the OS machine id call, and the current time. -/
structure IdWorld where
  ensureDirResult : Except JsErr Unit
  pathExists : Bool
  readJsonResult : Except JsErr (Option StoredIdentity)
  writeJsonResult : Except JsErr Unit
  uuidResult : Except JsErr String
  machineIdResult : Except JsErr String
  now : Nat
deriving Repr

/-- The live identity populated by IdentityManager. -/
structure UserIdentity where
  cliUserId : String
  machineId : String
  builderUserId : Option String
  sessionId : String
  sessionStartTime : Nat
deriving DecidableEq, Repr

/-- loadOrCreateCLIUserId: the try block ensures the directory, loads and
refreshes a valid identity file or writes a fresh one; the catch falls
back to generating a temporary id, which itself can throw. -/
def loadOrCreateCLIUserId (w : IdWorld) : Except JsErr String :=
  let body : Except JsErr String :=
    match w.ensureDirResult with
    | Except.error e => Except.error e
    | Except.ok _ =>
      match (if w.pathExists then some () else none) with
      | some _ =>
        match w.readJsonResult with
        | Except.error e => Except.error e
        | Except.ok (some data) =>
          match w.writeJsonResult with
          | Except.error e => Except.error e
          | Except.ok _ => Except.ok data.cliUserId
        | Except.ok none =>
          match w.uuidResult with
          | Except.error e => Except.error e
          | Except.ok uuid =>
            match w.writeJsonResult with
            | Except.error e => Except.error e
            | Except.ok _ => Except.ok uuid
      | none =>
        match w.uuidResult with
        | Except.error e => Except.error e
        | Except.ok uuid =>
          match w.writeJsonResult with
          | Except.error e => Except.error e
          | Except.ok _ => Except.ok uuid
  match body with
  | Except.ok cliUserId => Except.ok cliUserId
  | Except.error _ => w.uuidResult

/-- getMachineId: catches its own failure and falls back to the literal
unknown. -/
def getMachineId (w : IdWorld) : String :=
  match w.machineIdResult with
  | Except.ok m => m
  | Except.error _ => "unknown"

/-- The try block of IdentityManager initialization: load or create the
persistent id, read the machine id, generate a session id, record the
session start. -/
def identityInitTry (w : IdWorld) : Except JsErr UserIdentity :=
  match loadOrCreateCLIUserId w with
  | Except.error e => Except.error e
  | Except.ok cliUserId =>
    match w.uuidResult with
    | Except.error e => Except.error e
    | Except.ok sessionId =>
      Except.ok { cliUserId := cliUserId, machineId := getMachineId w,
                  builderUserId := none, sessionId := sessionId,
                  sessionStartTime := w.now }

/-- IdentityManager initialization: the catch block logs the failure and
rethrows it to the caller. -/
def identityInit (w : IdWorld) : Except JsErr UserIdentity :=
  match identityInitTry w with
  | Except.ok i => Except.ok i
  | Except.error e => Except.error e

/-- A collaborator world in which the UUID source throws (the one
uncaught failure source inside the identity try block and its catch
fallback). -/
def idWorldUuidFailure : IdWorld :=
  { ensureDirResult := Except.ok ()
    pathExists := false
    readJsonResult := Except.ok none
    writeJsonResult := Except.ok ()
    uuidResult := Except.error (JsErr.err "boom")
    machineIdResult := Except.ok "machine-1"
    now := 1111 }

/-- C3 counterexample: IdentityManager initialization does not complete
normally on an internal failure; with a throwing UUID source the error
is logged and rethrown to the caller, refuting the claim that every
public operation of the layer degrades instead of propagating. -/
theorem claim_C3_counterexample :
    identityInit idWorldUuidFailure = Except.error (JsErr.err "boom") := by
  rfl

/-- C3 (amended): the organization-modes refresh operations complete
normally whenever the fetch, merge, re-read or state-update collaborators
throw (their catch blocks log and swallow), but IdentityManager
initialization propagates any failure of its try block to the caller
(its catch logs and rethrows). -/
theorem claim_C3 :
    (∀ msgToken w, (refreshOrganizationModes msgToken w).2 = Except.ok ())
  ∧ (∀ token orgId w,
      (fetchAndRefreshOrganizationModesOnStartup token orgId w).2 = Except.ok ())
  ∧ (∀ w e, identityInitTry w = Except.error e →
      identityInit w = Except.error e) := by
  refine ⟨?_, ?_, ?_⟩
  · intro msgToken w
    unfold refreshOrganizationModes
    split
    · split <;> rfl
    · rfl
  · intro token orgId w
    unfold fetchAndRefreshOrganizationModesOnStartup
    split
    · split <;> rfl
    · rfl
  · intro w e h
    unfold identityInit
    rw [h]

/-- Closed-form instantiation of claim C3 (amended): a throwing merge
collaborator is swallowed by the refresh path, and the identity
initialization rethrows the UUID failure. -/
theorem claim_C3_witness :
    (refreshOrganizationModes (some "tok")
      { fetchResult := Except.ok ["m1"]
        mergeResult := Except.error (JsErr.err "merge-fail")
        getModesResult := Except.ok []
        updateResult := Except.ok () }).2 = Except.ok ()
    ∧ identityInit idWorldUuidFailure = Except.error (JsErr.err "boom") :=
  ⟨claim_C3.1 (some "tok") _,
    claim_C3.2.2 idWorldUuidFailure (JsErr.err "boom") (by rfl)⟩

/-- C10: when the startup refresh fetch succeeds with an empty list, the
startup path performs no merge and no global-state update, while the
settings-change path still merges the empty list and, once the merged
list is re-read, persists it to global state. -/
theorem claim_C10 (token orgId : Option String) (w : OrgWorld)
    (ht : truthy token = true) (ho : truthy orgId = true)
    (hf : w.fetchResult = Except.ok []) :
    (∀ ms, OrgEffect.mergeModes ms ∉
        (fetchAndRefreshOrganizationModesOnStartup token orgId w).1)
  ∧ (∀ cs, OrgEffect.updateState cs ∉
        (fetchAndRefreshOrganizationModesOnStartup token orgId w).1)
  ∧ OrgEffect.mergeModes [] ∈ (refreshOrganizationModes token w).1
  ∧ (w.mergeResult = Except.ok () → ∀ cs, w.getModesResult = Except.ok cs →
      OrgEffect.updateState cs ∈ (refreshOrganizationModes token w).1) := by
  have hstartup : (fetchAndRefreshOrganizationModesOnStartup token orgId w).1
      = [OrgEffect.fetchModes] := by
    unfold fetchAndRefreshOrganizationModesOnStartup fetchAndRefreshStartupTry
    rw [hf]
    simp [ht, ho]
  refine ⟨?_, ?_, ?_, ?_⟩
  · intro ms
    rw [hstartup]
    simp
  · intro cs
    rw [hstartup]
    simp
  · unfold refreshOrganizationModes refreshOrgModesTry
    rw [hf]
    simp only [ht, if_true]
    cases w.mergeResult with
    | error e => simp
    | ok u =>
      cases w.getModesResult with
      | error e => simp
      | ok cs =>
        cases w.updateResult with
        | error e => simp
        | ok u2 => simp
  · intro hm cs hg
    unfold refreshOrganizationModes refreshOrgModesTry
    rw [hf, hm, hg]
    simp only [ht, if_true]
    cases w.updateResult with
    | error e => simp
    | ok u2 => simp

/-- Closed-form instantiation of claim C10 at a concrete world whose
fetch returns the empty list. -/
theorem claim_C10_witness :
    (∀ ms, OrgEffect.mergeModes ms ∉
        (fetchAndRefreshOrganizationModesOnStartup (some "tok") (some "org")
          { fetchResult := Except.ok []
            mergeResult := Except.ok ()
            getModesResult := Except.ok ["kept-mode"]
            updateResult := Except.ok () }).1)
    ∧ OrgEffect.updateState ["kept-mode"] ∈ (refreshOrganizationModes (some "tok")
          { fetchResult := Except.ok []
            mergeResult := Except.ok ()
            getModesResult := Except.ok ["kept-mode"]
            updateResult := Except.ok () }).1 := by
  have h := claim_C10 (some "tok") (some "org")
    { fetchResult := Except.ok []
      mergeResult := Except.ok ()
      getModesResult := Except.ok ["kept-mode"]
      updateResult := Except.ok () }
    (by decide) (by decide) rfl
  exact ⟨h.1, h.2.2.2 rfl ["kept-mode"] rfl⟩
